import Mathlib

/-!
Shallow embedding of `src/components/VoiceSearch.tsx` from the
interactive-learning-hub repository.

The component keeps four pieces of state (`searchQuery`, `isListening`,
`searchResults`, `isLoading`), a pure result generator
(`generateSearchResults`), an async search orchestrator (`handleSearch`),
speech-recognition event handlers (`onstart`, `onresult`, `onerror`,
`onend`), a guarded starter (`startVoiceRecognition`) and a speech-output
helper (`speakResult`).

Strings are modelled by Lean `String`.  JavaScript's `encodeURIComponent`
and `String.prototype.trim`, and the regex replace `\s+ -> _`, are embedded
character by character below.  Stateful code is embedded as traces of
`Step`s applied to a `SearchState` by a fold, which keeps the real-time
order of the state writes, awaits and emitted effects (toasts, narration).
-/

/-- JavaScript whitespace (the regex class `\s`, which is also the set
trimmed by `String.prototype.trim`): tab, LF, VT, FF, CR, space, NBSP,
Ogham space mark, the en-quad..hair-space block, line/paragraph separator,
narrow NBSP, medium mathematical space, ideographic space and the BOM. -/
def isJsWhitespace (c : Char) : Bool :=
  let n := c.toNat
  n == 9 || n == 10 || n == 11 || n == 12 || n == 13 || n == 32 ||
  n == 160 || n == 0x1680 || (0x2000 ≤ n && n ≤ 0x200A) ||
  n == 0x2028 || n == 0x2029 || n == 0x202F || n == 0x205F ||
  n == 0x3000 || n == 0xFEFF

/-- JavaScript `String.prototype.trim`: drop leading and trailing
whitespace characters. -/
def jsTrim (s : String) : String :=
  ⟨((s.data.dropWhile isJsWhitespace).reverse.dropWhile isJsWhitespace).reverse⟩

/-- The regex replace of `query.replace(/\s+/g, '_')` on a character list:
every maximal run of whitespace characters becomes a single underscore. -/
def wsRunsToUnderscore : List Char → List Char
  | [] => []
  | c :: cs =>
    if isJsWhitespace c then '_' :: wsRunsToUnderscore (cs.dropWhile isJsWhitespace)
    else c :: wsRunsToUnderscore cs
termination_by l => l.length
decreasing_by
  · exact Nat.lt_succ_of_le (List.dropWhile_sublist isJsWhitespace).length_le
  · exact Nat.lt_succ_self _

/-- `query.replace(/\s+/g, '_')` on strings. -/
def jsWsToUnderscore (s : String) : String :=
  ⟨wsRunsToUnderscore s.data⟩

/-- Uppercase hexadecimal digit, as `encodeURIComponent` emits. -/
def hexDigitUpper (n : Nat) : Char :=
  if n < 10 then Char.ofNat (48 + n) else Char.ofNat (65 + (n - 10))

/-- One byte as a percent escape `%XY` (uppercase hex). -/
def percentEncodeByte (b : Nat) : List Char :=
  ['%', hexDigitUpper (b / 16), hexDigitUpper (b % 16)]

/-- The UTF-8 bytes of one Unicode scalar value. -/
def utf8Bytes (c : Char) : List Nat :=
  if c.toNat < 0x80 then [c.toNat]
  else if c.toNat < 0x800 then [0xC0 + c.toNat / 64, 0x80 + c.toNat % 64]
  else if c.toNat < 0x10000 then
    [0xE0 + c.toNat / 4096, 0x80 + c.toNat / 64 % 64, 0x80 + c.toNat % 64]
  else
    [0xF0 + c.toNat / 262144, 0x80 + c.toNat / 4096 % 64, 0x80 + c.toNat / 64 % 64,
     0x80 + c.toNat % 64]

/-- The characters `encodeURIComponent` leaves unescaped: ASCII letters,
digits, and `- _ . ! ~ * ' ( )` (codes 45, 95, 46, 33, 126, 42, 39, 40, 41). -/
def isUriUnescaped (c : Char) : Bool :=
  let n := c.toNat
  (48 ≤ n && n ≤ 57) || (65 ≤ n && n ≤ 90) || (97 ≤ n && n ≤ 122) ||
  n == 45 || n == 95 || n == 46 || n == 33 || n == 126 ||
  n == 42 || n == 39 || n == 40 || n == 41

/-- `encodeURIComponent` on one character: kept verbatim when unescaped,
otherwise each UTF-8 byte becomes a percent escape. -/
def encodeURIComponentChar (c : Char) : List Char :=
  if isUriUnescaped c then [c] else ((utf8Bytes c).map percentEncodeByte).flatten

/-- JavaScript `encodeURIComponent`. -/
def encodeURIComponent (s : String) : String :=
  ⟨(s.data.map encodeURIComponentChar).flatten⟩

/-- The `SearchResult` interface of `VoiceSearch.tsx`. -/
structure SearchResult where
  id : String
  title : String
  description : String
  url : String
  snippet : String
deriving DecidableEq, Repr

/-- `generateSearchResults` of `VoiceSearch.tsx`, transcribed field by
field: six templated results over the raw query, percent-encoded query in
five URLs, underscore-joined query in the Wikipedia URL. -/
def generateSearchResults (query : String) : List SearchResult :=
  let encodedQuery := encodeURIComponent query
  [ { id := "1",
      title := query ++ " - Wikipedia",
      description := "Learn comprehensive information about " ++ query ++ " on Wikipedia",
      url := "https://en.wikipedia.org/wiki/" ++ jsWsToUnderscore query,
      snippet := "Discover detailed information about " ++ query ++ " including its history, definition, and related topics. Wikipedia provides reliable, well-sourced content that's perfect for learning and research." },
    { id := "2",
      title := query ++ " - YouTube Tutorials",
      description := "Watch educational videos about " ++ query,
      url := "https://www.youtube.com/results?search_query=" ++ encodedQuery ++ "+tutorial",
      snippet := "Visual learning made easy! Watch step-by-step tutorials, expert explanations, and practical demonstrations about " ++ query ++ " from top educators and professionals." },
    { id := "3",
      title := query ++ " - Khan Academy",
      description := "Free online courses and lessons about " ++ query,
      url := "https://www.khanacademy.org/search?page_search_query=" ++ encodedQuery,
      snippet := "Access free, world-class education materials about " ++ query ++ ". Khan Academy offers structured learning paths, practice exercises, and expert instruction." },
    { id := "4",
      title := query ++ " - Coursera Courses",
      description := "Professional courses and certifications related to " ++ query,
      url := "https://www.coursera.org/search?query=" ++ encodedQuery,
      snippet := "Advance your knowledge with university-level courses about " ++ query ++ ". Learn from top institutions and industry experts with hands-on projects and certificates." },
    { id := "5",
      title := query ++ " - Reddit Discussions",
      description := "Community discussions and real experiences about " ++ query,
      url := "https://www.reddit.com/search/?q=" ++ encodedQuery,
      snippet := "Join the conversation! Read real experiences, ask questions, and get practical advice about " ++ query ++ " from a vibrant community of learners and experts." },
    { id := "6",
      title := query ++ " - Google Scholar",
      description := "Academic research and scholarly articles about " ++ query,
      url := "https://scholar.google.com/scholar?q=" ++ encodedQuery,
      snippet := "Access peer-reviewed research papers, academic studies, and scholarly articles about " ++ query ++ ". Perfect for in-depth research and academic learning." } ]

/-- One atomic action of the component, in real-time order: a state write,
the awaited artificial delay (milliseconds), a narration via the speech
output adapter, a toast notice, or the platform call `recognition.start()`. -/
inductive Step where
  | setQuery (q : String)
  | setListening (b : Bool)
  | setLoading (b : Bool)
  | setResults (rs : List SearchResult)
  | awaitDelay (ms : Nat)
  | speak (text : String)
  | toast (title description : String) (destructive : Bool)
  | recognitionStart
deriving DecidableEq, Repr

/-- The component's React state: `searchQuery`, `isListening`,
`searchResults`, `isLoading`. -/
structure SearchState where
  searchQuery : String
  isListening : Bool
  searchResults : List SearchResult
  isLoading : Bool
deriving DecidableEq, Repr

/-- The initial state of the mounted component. -/
def initialState : SearchState :=
  { searchQuery := "", isListening := false, searchResults := [], isLoading := false }

/-- Effect of one step on the state: the four setters write their field;
delays, narration, toasts and the platform call leave the state unchanged. -/
def applyStep (s : SearchState) : Step → SearchState
  | Step.setQuery q => { s with searchQuery := q }
  | Step.setListening b => { s with isListening := b }
  | Step.setLoading b => { s with isLoading := b }
  | Step.setResults rs => { s with searchResults := rs }
  | Step.awaitDelay _ => s
  | Step.speak _ => s
  | Step.toast _ _ _ => s
  | Step.recognitionStart => s

/-- Run a trace of steps left to right. -/
def applyTrace (s : SearchState) (t : List Step) : SearchState :=
  t.foldl applyStep s

/-- The summary sentence `handleSearch` narrates:
`Found ${results.length} learning resources for ${query}. ...`. -/
def searchSummary (query : String) : String :=
  "Found " ++ toString (generateSearchResults query).length ++
  " learning resources for " ++ query ++ ". Click any result to start learning!"

/-- The synchronous prefix of `handleSearch(query)`: the guard
`if (!query.trim()) return;`, then `setIsLoading(true)` and the start of
the awaited 1000 ms artificial delay. -/
def handleSearchSync (query : String) : List Step :=
  if jsTrim query = "" then []
  else [Step.setLoading true, Step.awaitDelay 1000]

/-- The continuation of `handleSearch(query)` after its delay resolves:
`setSearchResults(generateSearchResults(query))`, `setIsLoading(false)`,
then `speakResult(...)` with the summary sentence. -/
def handleSearchCont (query : String) : List Step :=
  if jsTrim query = "" then []
  else [Step.setResults (generateSearchResults query), Step.setLoading false,
        Step.speak (searchSummary query)]

/-- The full trace of one `handleSearch(query)` invocation run to
completion with no interleaving. -/
def handleSearch (query : String) : List Step :=
  handleSearchSync query ++ handleSearchCont query

/-- The `onstart` handler: `setIsListening(true)` and the listening toast. -/
def onStartTrace : List Step :=
  [Step.setListening true, Step.toast "Listening..." "Speak now to search" false]

/-- The `onresult` handler: `setSearchQuery(transcript)` then
`handleSearch(transcript)`, whose synchronous part runs before the handler
returns. -/
def onResultTrace (transcript : String) : List Step :=
  Step.setQuery transcript :: handleSearchSync transcript

/-- The `onend` handler: `setIsListening(false)`. -/
def onEndTrace : List Step :=
  [Step.setListening false]

/-- The `onerror` handler: `setIsListening(false)` and a destructive toast. -/
def onErrorTrace : List Step :=
  [Step.setListening false,
   Step.toast "Voice Recognition Error" "Please try again or use text input" true]

/-- A successful recognition, end to end, in the real event order of a
non-continuous session: `onresult` fires (query stored, search dispatched
up to its await), the session ends and `onend` fires, and only then the
1000 ms delay resolves and the search continuation runs. -/
def transcriptSuccessTrace (transcript : String) : List Step :=
  onResultTrace transcript ++ onEndTrace ++ handleSearchCont transcript

/-- `startVoiceRecognition`: with a recognition instance it calls
`recognition.start()`; with none (unsupported platform) it only shows the
destructive "not supported" toast. -/
def startVoiceRecognition (recognitionAvailable : Bool) : List Step :=
  if recognitionAvailable then [Step.recognitionStart]
  else [Step.toast "Voice Recognition Not Supported"
          "Your browser doesn't support voice recognition" true]

/-- A speech-synthesis utterance as configured by `speakResult`. -/
structure Utterance where
  text : String
  rate : ℚ
  pitch : ℚ
  volume : ℚ
deriving DecidableEq, Repr

/-- Platform default utterance rate. -/
def defaultRate : ℚ := 1

/-- Platform default utterance pitch. -/
def defaultPitch : ℚ := 1

/-- Platform default utterance volume. -/
def defaultVolume : ℚ := 1

/-- `speakResult(text)`: when `speechSynthesis` exists, speak `text` with
rate 0.8, pitch 1, volume 0.8; otherwise do nothing at all. -/
def speakResult (synthesisAvailable : Bool) (text : String) : List Utterance :=
  if synthesisAvailable then
    [{ text := text, rate := 0.8, pitch := 1, volume := 0.8 }]
  else []

/-- Two `handleSearch` calls dispatched back to back, the second before the
first's delay resolves: both synchronous prefixes run first (dispatch
order), then both continuations run, in either resolution order
(`secondResolvesLast`). Nothing cancels either call. -/
def overlappingSearches (q1 q2 : String) (secondResolvesLast : Bool) : List Step :=
  handleSearchSync q1 ++ handleSearchSync q2 ++
  (if secondResolvesLast then handleSearchCont q1 ++ handleSearchCont q2
   else handleSearchCont q2 ++ handleSearchCont q1)

/-! ### Helper lemmas shared by the claim theorems -/

/-- The summary sentence always reports six results. -/
lemma searchSummary_eq (q : String) :
    searchSummary q =
      "Found 6 learning resources for " ++ q ++ ". Click any result to start learning!" := by
  unfold searchSummary
  rw [show (generateSearchResults q).length = 6 from rfl]
  rw [show ("Found " ++ toString (6 : Nat) ++ " learning resources for " : String) =
        "Found 6 learning resources for " from by decide]

/-- `handleSearch` on a query whose trim is non-empty is the five-step
load/delay/replace/unload/narrate trace. -/
lemma handleSearch_eq_of_nonblank (q : String) (h : jsTrim q ≠ "") :
    handleSearch q =
      [Step.setLoading true, Step.awaitDelay 1000,
       Step.setResults (generateSearchResults q), Step.setLoading false,
       Step.speak (searchSummary q)] := by
  simp [handleSearch, handleSearchSync, handleSearchCont, h]

/-- `encodeURIComponent` works character by character, so it distributes
over append. -/
lemma encodeURIComponent_append (s t : String) :
    encodeURIComponent (s ++ t) = encodeURIComponent s ++ encodeURIComponent t := by
  apply String.ext
  simp [encodeURIComponent]

/-- C8: the Result Synthesizer is a pure function: two calls on the same
query yield the same list, field for field (ids included). -/
theorem generateSearchResults_pure (q : String) :
    List.Forall₂
      (fun a b : SearchResult =>
        a.id = b.id ∧ a.title = b.title ∧ a.description = b.description ∧
        a.url = b.url ∧ a.snippet = b.snippet)
      (generateSearchResults q) (generateSearchResults q) ∧
    generateSearchResults q = generateSearchResults q := by
  refine ⟨?_, rfl⟩
  rw [List.forall₂_same]
  intro x _
  exact ⟨rfl, rfl, rfl, rfl, rfl⟩

/-- C1: on any non-empty query the synthesizer returns exactly six results
in the fixed order Wikipedia, YouTube, Khan Academy, Coursera, Reddit,
Google Scholar; the five non-encyclopedia URLs embed the percent-encoded
query, while the Wikipedia URL embeds the underscore-joined raw query. -/
theorem generateSearchResults_six (q : String) (_hq : q ≠ "") :
    (generateSearchResults q).length = 6 ∧
    (generateSearchResults q).map SearchResult.id = ["1", "2", "3", "4", "5", "6"] ∧
    (generateSearchResults q).map SearchResult.url =
      ["https://en.wikipedia.org/wiki/" ++ jsWsToUnderscore q,
       "https://www.youtube.com/results?search_query=" ++ encodeURIComponent q ++ "+tutorial",
       "https://www.khanacademy.org/search?page_search_query=" ++ encodeURIComponent q,
       "https://www.coursera.org/search?query=" ++ encodeURIComponent q,
       "https://www.reddit.com/search/?q=" ++ encodeURIComponent q,
       "https://scholar.google.com/scholar?q=" ++ encodeURIComponent q] ∧
    (∀ r ∈ (generateSearchResults q).tail, ∃ p t, r.url = p ++ encodeURIComponent q ++ t) ∧
    (∃ p, ((generateSearchResults q).head?).map SearchResult.url =
      some (p ++ jsWsToUnderscore q)) := by
  refine ⟨rfl, rfl, rfl, ?_, ⟨"https://en.wikipedia.org/wiki/", rfl⟩⟩
  intro r hr
  simp only [generateSearchResults, List.tail_cons, List.mem_cons, List.not_mem_nil,
    or_false] at hr
  rcases hr with rfl | rfl | rfl | rfl | rfl
  · exact ⟨"https://www.youtube.com/results?search_query=", "+tutorial", rfl⟩
  · exact ⟨"https://www.khanacademy.org/search?page_search_query=", "", by simp⟩
  · exact ⟨"https://www.coursera.org/search?query=", "", by simp⟩
  · exact ⟨"https://www.reddit.com/search/?q=", "", by simp⟩
  · exact ⟨"https://scholar.google.com/scholar?q=", "", by simp⟩

/-- C1 witness at the concrete query "cooking". -/
theorem generateSearchResults_six_witness :
    ("cooking" : String) ≠ "" ∧ (generateSearchResults "cooking").length = 6 :=
  ⟨by decide, (generateSearchResults_six "cooking" (by decide)).1⟩

/-- C2: on an empty or whitespace-only query `handleSearch` does nothing:
its trace is empty, so no state field changes and no effect is emitted. -/
theorem handleSearch_blank_noop (q : String) (h : jsTrim q = "") :
    handleSearch q = [] ∧ ∀ s : SearchState, applyTrace s (handleSearch q) = s := by
  constructor
  · simp [handleSearch, handleSearchSync, handleSearchCont, h]
  · intro s
    simp [handleSearch, handleSearchSync, handleSearchCont, h, applyTrace]

/-- C2 witness at the whitespace-only query of three spaces. -/
theorem handleSearch_blank_noop_witness :
    handleSearch "   " = [] ∧ applyTrace initialState (handleSearch "   ") = initialState :=
  ⟨(handleSearch_blank_noop "   " (by decide)).1,
   (handleSearch_blank_noop "   " (by decide)).2 initialState⟩

/-- C3: on a query with non-whitespace content the `handleSearch` trace is
exactly: isLoading on, the fixed 1000 ms delay, wholesale replacement of
the results with the six synthesized ones, isLoading off, then the summary
narration naming the count and the query. -/
theorem handleSearch_nonblank_trace (q : String) (h : jsTrim q ≠ "") :
    handleSearch q =
      [Step.setLoading true, Step.awaitDelay 1000,
       Step.setResults (generateSearchResults q), Step.setLoading false,
       Step.speak ("Found 6 learning resources for " ++ q ++
         ". Click any result to start learning!")] := by
  rw [handleSearch_eq_of_nonblank q h, searchSummary_eq]

/-- C3 witness: for the query "cooking" the narrated summary is the exact
sentence the spec names. -/
theorem handleSearch_nonblank_trace_witness :
    handleSearch "cooking" =
      [Step.setLoading true, Step.awaitDelay 1000,
       Step.setResults (generateSearchResults "cooking"), Step.setLoading false,
       Step.speak "Found 6 learning resources for cooking. Click any result to start learning!"] := by
  rw [handleSearch_nonblank_trace "cooking" (by decide)]
  rfl

/-- C4: after a successful transcript (result event then the session's end
event, then the search continuation), the listener flag is off, the query
equals the transcript, and for a transcript with content the search ran
with it: the trace is exactly store-query, loading on, delay, listener
off, replace results, loading off, narrate — with no confirmation step
anywhere. -/
theorem transcriptSuccess_spec (t : String) :
    ∀ s : SearchState,
      (applyTrace s (transcriptSuccessTrace t)).isListening = false ∧
      (applyTrace s (transcriptSuccessTrace t)).searchQuery = t ∧
      (jsTrim t ≠ "" →
        transcriptSuccessTrace t =
          [Step.setQuery t, Step.setLoading true, Step.awaitDelay 1000,
           Step.setListening false, Step.setResults (generateSearchResults t),
           Step.setLoading false, Step.speak (searchSummary t)] ∧
        (applyTrace s (transcriptSuccessTrace t)).searchResults = generateSearchResults t) := by
  intro s
  by_cases h : jsTrim t = "" <;>
    simp [transcriptSuccessTrace, onResultTrace, onEndTrace, handleSearchSync,
      handleSearchCont, applyTrace, applyStep, h]

/-- C4 witness at the transcript "cooking" from the initial state. -/
theorem transcriptSuccess_spec_witness :
    (applyTrace initialState (transcriptSuccessTrace "cooking")).isListening = false ∧
    (applyTrace initialState (transcriptSuccessTrace "cooking")).searchQuery = "cooking" ∧
    (applyTrace initialState (transcriptSuccessTrace "cooking")).searchResults =
      generateSearchResults "cooking" :=
  ⟨(transcriptSuccess_spec "cooking" initialState).1,
   (transcriptSuccess_spec "cooking" initialState).2.1,
   ((transcriptSuccess_spec "cooking" initialState).2.2 (by decide)).2⟩

/-- C5: the recognition error handler turns the listener flag off and emits
one destructive error toast, and leaves the query, the results and the
loading flag exactly as they were. -/
theorem onError_spec :
    onErrorTrace =
      [Step.setListening false,
       Step.toast "Voice Recognition Error" "Please try again or use text input" true] ∧
    ∀ s : SearchState,
      (applyTrace s onErrorTrace).isListening = false ∧
      (applyTrace s onErrorTrace).searchQuery = s.searchQuery ∧
      (applyTrace s onErrorTrace).searchResults = s.searchResults ∧
      (applyTrace s onErrorTrace).isLoading = s.isLoading := by
  refine ⟨rfl, ?_⟩
  intro s
  simp [onErrorTrace, applyTrace, applyStep]

/-- C6: with no recognition capability, a start attempt produces exactly
the destructive "not supported" toast and leaves every state field — the
whole state — unchanged; being a total function of the model it throws
nothing. -/
theorem startVoiceRecognition_unsupported :
    startVoiceRecognition false =
      [Step.toast "Voice Recognition Not Supported"
        "Your browser doesn't support voice recognition" true] ∧
    ∀ s : SearchState, applyTrace s (startVoiceRecognition false) = s := by
  refine ⟨rfl, ?_⟩
  intro s
  simp [startVoiceRecognition, applyTrace, applyStep]

/-- C7: with speech synthesis present, `speakResult` produces exactly one
utterance of the given text at rate 0.8 (slower than the default 1), pitch
1 (the default) and volume 0.8 (below the default 1); with it absent, it
produces nothing at all. -/
theorem speakResult_spec (text : String) :
    speakResult true text = [{ text := text, rate := 0.8, pitch := 1, volume := 0.8 }] ∧
    (∀ u ∈ speakResult true text,
      u.text = text ∧ u.rate < defaultRate ∧ u.pitch = defaultPitch ∧
      u.volume < defaultVolume) ∧
    speakResult false text = [] := by
  refine ⟨rfl, ?_, rfl⟩
  intro u hu
  simp only [speakResult, if_true, List.mem_singleton] at hu
  subst hu
  refine ⟨rfl, ?_, rfl, ?_⟩ <;> · simp [defaultRate, defaultVolume]; norm_num

/-- C7 witness at the text "hello". -/
theorem speakResult_spec_witness :
    speakResult true "hello" =
      [{ text := "hello", rate := 0.8, pitch := 1, volume := 0.8 }] ∧
    speakResult false "hello" = [] :=
  ⟨(speakResult_spec "hello").1, (speakResult_spec "hello").2.2⟩

/-- C9: two overlapping searches, the second dispatched before the first's
delay resolves: whatever resolution order, both run to completion (both
result replacements and both narrations appear in the trace) and the final
results are those of the invocation whose delay resolved last. -/
theorem overlappingSearches_lastWriteWins (q1 q2 : String)
    (h1 : jsTrim q1 ≠ "") (h2 : jsTrim q2 ≠ "") (secondResolvesLast : Bool) :
    (∀ s : SearchState,
      (applyTrace s (overlappingSearches q1 q2 secondResolvesLast)).searchResults =
        generateSearchResults (if secondResolvesLast then q2 else q1) ∧
      (applyTrace s (overlappingSearches q1 q2 secondResolvesLast)).isLoading = false) ∧
    Step.setResults (generateSearchResults q1) ∈ overlappingSearches q1 q2 secondResolvesLast ∧
    Step.setResults (generateSearchResults q2) ∈ overlappingSearches q1 q2 secondResolvesLast ∧
    Step.speak (searchSummary q1) ∈ overlappingSearches q1 q2 secondResolvesLast ∧
    Step.speak (searchSummary q2) ∈ overlappingSearches q1 q2 secondResolvesLast := by
  cases secondResolvesLast <;>
    refine ⟨fun s => ?_, ?_, ?_, ?_, ?_⟩ <;>
      simp [overlappingSearches, handleSearchSync, handleSearchCont, h1, h2,
        applyTrace, applyStep]

/-- C9 witness: searches for "cats" then "dogs", the second resolving last,
leave the "dogs" results in place. -/
theorem overlappingSearches_lastWriteWins_witness :
    (applyTrace initialState (overlappingSearches "cats" "dogs" true)).searchResults =
      generateSearchResults "dogs" :=
  ((overlappingSearches_lastWriteWins "cats" "dogs" (by decide) (by decide) true).1
    initialState).1

set_option maxHeartbeats 2000000 in
/-- Unfolding `wsRunsToUnderscore` at the empty list. -/
lemma wsRuns_nil : wsRunsToUnderscore [] = [] := by
  rw [wsRunsToUnderscore]

/-- Unfolding `wsRunsToUnderscore` at a whitespace head. -/
lemma wsRuns_cons_ws (c : Char) (cs : List Char) (h : isJsWhitespace c = true) :
    wsRunsToUnderscore (c :: cs) =
      '_' :: wsRunsToUnderscore (cs.dropWhile isJsWhitespace) := by
  rw [wsRunsToUnderscore]
  simp [h]

/-- Unfolding `wsRunsToUnderscore` at a non-whitespace head. -/
lemma wsRuns_cons_not_ws (c : Char) (cs : List Char) (h : isJsWhitespace c = false) :
    wsRunsToUnderscore (c :: cs) = c :: wsRunsToUnderscore cs := by
  rw [wsRunsToUnderscore]
  simp [h]

/-- `getLast?` ignores a fresh head when the tail already has a last. -/
lemma getLast?_cons_some {x y : Char} {t : List Char} (h : t.getLast? = some y) :
    (x :: t).getLast? = some y := by
  cases t with
  | nil => simp at h
  | cons a as => rw [List.getLast?_cons_cons]; exact h

/-- A list ending in a non-empty run of whitespace collapses to something
ending in an underscore. -/
lemma wsRuns_getLast_ws (n : Nat) :
    ∀ l bs : List Char, l.length ≤ n → bs ≠ [] →
      (∀ c ∈ bs, isJsWhitespace c = true) →
      (wsRunsToUnderscore (l ++ bs)).getLast? = some '_' := by
  induction n with
  | zero =>
    intro l bs hl hbs hw
    have hl0 : l = [] := List.length_eq_zero.mp (Nat.le_zero.mp hl)
    subst hl0
    cases bs with
    | nil => exact absurd rfl hbs
    | cons c cs =>
      rw [List.nil_append, wsRuns_cons_ws c cs (hw c (List.mem_cons_self c cs))]
      have hnil : cs.dropWhile isJsWhitespace = [] :=
        List.dropWhile_eq_nil_iff.mpr fun x hx => hw x (List.mem_cons_of_mem c hx)
      rw [hnil, wsRuns_nil]
      rfl
  | succ n ih =>
    intro l bs hl hbs hw
    cases l with
    | nil => exact ih [] bs (by simp) hbs hw
    | cons c cs =>
      rw [List.cons_append]
      cases hc : isJsWhitespace c with
      | false =>
        rw [wsRuns_cons_not_ws c (cs ++ bs) hc]
        exact getLast?_cons_some (ih cs bs (Nat.le_of_succ_le_succ (by simpa using hl)) hbs hw)
      | true =>
        rw [wsRuns_cons_ws c (cs ++ bs) hc]
        rcases hd : cs.dropWhile isJsWhitespace with _ | ⟨d, ds⟩
        · have hcs : ∀ x ∈ cs, isJsWhitespace x = true :=
            fun x hx => List.dropWhile_eq_nil_iff.mp hd x hx
          have hall : (cs ++ bs).dropWhile isJsWhitespace = [] := by
            rw [List.dropWhile_append_of_pos hcs]
            exact List.dropWhile_eq_nil_iff.mpr hw
          rw [hall, wsRuns_nil]
          rfl
        · have happ : (cs ++ bs).dropWhile isJsWhitespace = (d :: ds) ++ bs := by
            rw [List.dropWhile_append, hd]
            simp
          rw [happ]
          have hlen : (d :: ds).length ≤ n := by
            have h1 : (cs.dropWhile isJsWhitespace).length ≤ cs.length :=
              (List.dropWhile_sublist _).length_le
            rw [hd] at h1
            have h2 : cs.length + 1 ≤ n + 1 := by simpa using hl
            omega
          exact getLast?_cons_some (ih (d :: ds) bs hlen hbs hw)

/-- A whitespace character is never left unescaped: its encoding starts
with a percent sign. -/
lemma encodeURIComponentChar_ws (c : Char) (h : isJsWhitespace c = true) :
    (encodeURIComponentChar c).head? = some '%' := by
  have hu : isUriUnescaped c = false := by
    simp only [isJsWhitespace, Bool.or_eq_true, beq_iff_eq, Bool.and_eq_true,
      decide_eq_true_eq] at h
    simp only [isUriUnescaped, Bool.or_eq_false_iff, beq_eq_false_iff_ne, ne_eq,
      Bool.and_eq_false_iff, decide_eq_false_iff_not, not_le]
    omega
  unfold encodeURIComponentChar
  rw [if_neg (by simp [hu])]
  unfold utf8Bytes
  by_cases h1 : c.toNat < 128
  · rw [if_pos h1]
    simp [percentEncodeByte]
  · rw [if_neg h1]
    by_cases h2 : c.toNat < 2048
    · rw [if_pos h2]
      simp [percentEncodeByte]
    · rw [if_neg h2]
      by_cases h3 : c.toNat < 65536
      · rw [if_pos h3]
        simp [percentEncodeByte]
      · rw [if_neg h3]
        simp [percentEncodeByte]

/-- Trimming strips exactly the whitespace padding around a core whose
first and last characters are not whitespace. -/
lemma jsTrim_pad (a m b : String)
    (haw : ∀ c ∈ a.data, isJsWhitespace c = true)
    (hbw : ∀ c ∈ b.data, isJsWhitespace c = true)
    (hmh : ∃ ch, m.data.head? = some ch ∧ isJsWhitespace ch = false)
    (hml : ∃ cl, m.data.getLast? = some cl ∧ isJsWhitespace cl = false) :
    jsTrim (a ++ m ++ b) = m := by
  obtain ⟨ch, hh, hwh⟩ := hmh
  obtain ⟨cl, hlast, hwl⟩ := hml
  apply String.ext
  show ((((a ++ m ++ b).data.dropWhile isJsWhitespace).reverse.dropWhile
      isJsWhitespace).reverse) = m.data
  rw [String.data_append, String.data_append, List.append_assoc,
    List.dropWhile_append_of_pos haw]
  rcases hm : m.data with _ | ⟨x, xs⟩
  · rw [hm] at hh; simp at hh
  · rw [hm] at hh hlast
    simp only [List.head?_cons, Option.some.injEq] at hh
    subst hh
    rw [List.cons_append, List.dropWhile_cons_of_neg (by simp [hwh]),
      ← List.cons_append, List.reverse_append,
      List.dropWhile_append_of_pos (fun c hc => hbw c (List.mem_reverse.mp hc))]
    rcases hrev : (x :: xs).reverse with _ | ⟨y, ys⟩
    · simp at hrev
    · have hy : (x :: xs).getLast? = some y := by
        rw [← List.head?_reverse, hrev]; rfl
      rw [hy] at hlast
      simp only [Option.some.injEq] at hlast
      subst hlast
      rw [List.dropWhile_cons_of_neg (by simp [hwl]), ← hrev, List.reverse_reverse]

/-- C10: `handleSearch` trims only for the emptiness test and hands the
raw query on: for a query made of whitespace padding around non-blank
content, the trace stores results built from the untrimmed query, every
title, description and snippet interpolates the untrimmed string, the
percent-encoded URLs encode the padding (a space becomes `%20`, every
padding character a `%` escape), and the encyclopedia URL turns leading
and trailing padding into leading and trailing underscores. -/
theorem handleSearch_raw_query (a m b : String)
    (haw : ∀ c ∈ a.data, isJsWhitespace c = true)
    (hbw : ∀ c ∈ b.data, isJsWhitespace c = true)
    (hmh : ∃ ch, m.data.head? = some ch ∧ isJsWhitespace ch = false)
    (hml : ∃ cl, m.data.getLast? = some cl ∧ isJsWhitespace cl = false)
    (_hpad : a ≠ "" ∨ b ≠ "") :
    jsTrim (a ++ m ++ b) = m ∧
    Step.setResults (generateSearchResults (a ++ m ++ b)) ∈ handleSearch (a ++ m ++ b) ∧
    (generateSearchResults (a ++ m ++ b)).map SearchResult.title =
      [(a ++ m ++ b) ++ " - Wikipedia", (a ++ m ++ b) ++ " - YouTube Tutorials",
       (a ++ m ++ b) ++ " - Khan Academy", (a ++ m ++ b) ++ " - Coursera Courses",
       (a ++ m ++ b) ++ " - Reddit Discussions", (a ++ m ++ b) ++ " - Google Scholar"] ∧
    (generateSearchResults (a ++ m ++ b)).map SearchResult.description =
      ["Learn comprehensive information about " ++ (a ++ m ++ b) ++ " on Wikipedia",
       "Watch educational videos about " ++ (a ++ m ++ b),
       "Free online courses and lessons about " ++ (a ++ m ++ b),
       "Professional courses and certifications related to " ++ (a ++ m ++ b),
       "Community discussions and real experiences about " ++ (a ++ m ++ b),
       "Academic research and scholarly articles about " ++ (a ++ m ++ b)] ∧
    (∀ r ∈ generateSearchResults (a ++ m ++ b), ∃ p t, r.snippet = p ++ (a ++ m ++ b) ++ t) ∧
    encodeURIComponent (a ++ m ++ b) =
      encodeURIComponent a ++ encodeURIComponent m ++ encodeURIComponent b ∧
    (∀ c ∈ a.data, (encodeURIComponentChar c).head? = some '%') ∧
    (∀ c ∈ b.data, (encodeURIComponentChar c).head? = some '%') ∧
    encodeURIComponent " " = "%20" ∧
    (a ≠ "" → (jsWsToUnderscore (a ++ m ++ b)).data.head? = some '_') ∧
    (b ≠ "" → (jsWsToUnderscore (a ++ m ++ b)).data.getLast? = some '_') := by
  have htrim : jsTrim (a ++ m ++ b) = m := jsTrim_pad a m b haw hbw hmh hml
  have hm_ne : m ≠ "" := by
    rintro rfl
    obtain ⟨ch, hh, _⟩ := hmh
    simp at hh
  have hq : jsTrim (a ++ m ++ b) ≠ "" := by rw [htrim]; exact hm_ne
  refine ⟨htrim, ?_, rfl, rfl, ?_, ?_, ?_, ?_, by decide, ?_, ?_⟩
  · rw [handleSearch_eq_of_nonblank _ hq]
    simp
  · intro r hr
    simp only [generateSearchResults, List.mem_cons, List.not_mem_nil, or_false] at hr
    rcases hr with rfl | rfl | rfl | rfl | rfl | rfl <;> exact ⟨_, _, rfl⟩
  · rw [encodeURIComponent_append, encodeURIComponent_append]
  · intro c hc
    exact encodeURIComponentChar_ws c (haw c hc)
  · intro c hc
    exact encodeURIComponentChar_ws c (hbw c hc)
  · intro ha
    have had : a.data ≠ [] := fun h0 => ha (String.ext h0)
    rcases had2 : a.data with _ | ⟨x, xs⟩
    · exact absurd had2 had
    · show (wsRunsToUnderscore (a ++ m ++ b).data).head? = some '_'
      rw [String.data_append, String.data_append, List.append_assoc, had2,
        List.cons_append,
        wsRuns_cons_ws x _ (haw x (by rw [had2]; exact List.mem_cons_self x xs))]
      rfl
  · intro hb
    have hbd : b.data ≠ [] := fun h0 => hb (String.ext h0)
    show (wsRunsToUnderscore (a ++ m ++ b).data).getLast? = some '_'
    rw [String.data_append]
    exact wsRuns_getLast_ws ((a ++ m).data.length) (a ++ m).data b.data (le_refl _) hbd hbw

/-- C10 witness at the padded query `" cooking "`. -/
theorem handleSearch_raw_query_witness :
    jsTrim (" " ++ "cooking" ++ " ") = "cooking" ∧
    encodeURIComponent (" " ++ "cooking" ++ " ") =
      encodeURIComponent " " ++ encodeURIComponent "cooking" ++ encodeURIComponent " " ∧
    encodeURIComponent " " = "%20" ∧
    (jsWsToUnderscore (" " ++ "cooking" ++ " ")).data.head? = some '_' ∧
    (jsWsToUnderscore (" " ++ "cooking" ++ " ")).data.getLast? = some '_' :=
  have h := handleSearch_raw_query " " "cooking" " "
    (by decide) (by decide) ⟨'c', by decide, by decide⟩ ⟨'g', by decide, by decide⟩
    (Or.inl (by decide))
  ⟨h.1, h.2.2.2.2.2.1, h.2.2.2.2.2.2.2.2.1, h.2.2.2.2.2.2.2.2.2.1 (by decide),
   h.2.2.2.2.2.2.2.2.2.2 (by decide)⟩
